import Mathlib

/-!
Verification of the openagentic cost-aware budget-tracking subsystem.

This file shallowly embeds the cost tracker and execution-guard code:

* the closure-based `createCostTracker` of `src/utils/cost-tracker.ts`
  (namespace `CostTrackerTs`),
* the class-based `CostTrackerImpl` variant (namespace `CostTrackerImpl`),
* the tool executors `executeOpenAi` (`src/tools/openai.ts`) and
  `executeAnthropic` (`src/tools/anthropic.ts`),
* the `chat` orchestrator entry of `src/ai.ts` up to its provider invocation.

JavaScript numbers are modelled as exact rationals; the one place where
IEEE special values matter for control flow (`remainingBudgetCents /
maxCostCents` with a zero denominator inside
`CostTrackerImpl.getDefaultMaxTokens`) is modelled explicitly with `JSNum`.
Provider calls are network effects, so the executors take the provider's
outcome (a response or a thrown message) as an explicit argument.
-/

namespace OpenAgentic

/-- The JavaScript number results that can flow into the tracker's
budget-percentage comparisons: a finite rational, `NaN` (from `0/0`), or
`+Infinity` (from `x/0` with `x > 0`). -/
inductive JSNum where
  | num (q : ℚ)
  | nan
  | inf
deriving DecidableEq, Repr

/-- JavaScript division `n / d` as it occurs in the tracker (`n ≥ 0` there):
`0/0` is `NaN`, `x/0` with `x ≠ 0` is `+Infinity`, otherwise exact division. -/
def jsDiv (n d : ℚ) : JSNum :=
  if d = 0 then (if n = 0 then .nan else .inf) else .num (n / d)

/-- JavaScript `x <= c` for a finite literal `c`: comparisons with `NaN` are
false, and `+Infinity <= c` is false as well. -/
def JSNum.leB : JSNum → ℚ → Bool
  | .num q, c => decide (q ≤ c)
  | .nan, _ => false
  | .inf, _ => false

/-- JavaScript `x * c` for a finite positive literal `c` (used by
`getSummary` for `budgetUsedPercentage`). -/
def JSNum.mulPos : JSNum → ℚ → JSNum
  | .num q, c => .num (q * c)
  | .nan, _ => .nan
  | .inf, _ => .inf

/-- JavaScript `x || d` where `x` is an optional number: `undefined` and `0`
are falsy, so both select the fallback `d`. -/
def jsOrQ (x : Option ℚ) (d : ℚ) : ℚ :=
  match x with
  | some v => if v = 0 then d else v
  | none => d

/-- One entry of the pricing table: the fields of
`model_prices_and_context_window.json` that the trackers read
(`ModelCostConfig` in `types.ts`). -/
structure ModelCostConfig where
  max_tokens : ℚ
  max_input_tokens : ℚ
  max_output_tokens : ℚ
  input_cost_per_token : ℚ
  output_cost_per_token : ℚ
deriving DecidableEq, Repr

/-- The pricing table, keyed by exact model identifier; `none` is the
unknown-model case. -/
abbrev PricingTable := String → Option ModelCostConfig

/-- `UsageRecord.source` from `types.ts`. -/
inductive Source where
  | orchestrator
  | tool
deriving DecidableEq, Repr

/-- `UsageRecord` from `types.ts`; the `Date` timestamp is kept as an
abstract tick, it plays no role in any computation. -/
structure UsageRecord where
  model : String
  inputTokens : ℚ
  outputTokens : ℚ
  costCents : ℚ
  timestamp : ℕ
  source : Source
  toolName : Option String := none
deriving DecidableEq, Repr

/-- The mutable tracker state. Both variants hold exactly these fields
(`maxCostCents` fixed at construction, `totalCostCents` starting at 0 and
`usageHistory` starting empty). -/
structure TrackerState where
  maxCostCents : ℚ
  totalCostCents : ℚ
  usageHistory : List UsageRecord
deriving DecidableEq, Repr

/-- Tracker state at construction time (`createCostTracker(maxCostCents)` /
`new CostTrackerImpl(maxCostCents)`). -/
def createState (maxCostCents : ℚ) : TrackerState :=
  { maxCostCents := maxCostCents, totalCostCents := 0, usageHistory := [] }

/-- `getRemainingBudgetCents()`: `Math.max(0, maxCostCents - totalCostCents)`
(identical in both variants). -/
def getRemainingBudgetCents (s : TrackerState) : ℚ :=
  max 0 (s.maxCostCents - s.totalCostCents)

/-- `canAfford(costCents)`: `getRemainingBudgetCents() >= costCents`
(identical in both variants). -/
def canAfford (s : TrackerState) (costCents : ℚ) : Bool :=
  decide (getRemainingBudgetCents s ≥ costCents)

/-- `addUsage(record)`: push the record and add its cost to the running total
(identical in both variants). -/
def addUsage (s : TrackerState) (r : UsageRecord) : TrackerState :=
  { s with
    usageHistory := s.usageHistory ++ [r]
    totalCostCents := s.totalCostCents + r.costCents }

/-- `CostSummary` from `types.ts`. -/
structure CostSummary where
  totalCostCents : ℚ
  maxCostCents : ℚ
  remainingBudgetCents : ℚ
  budgetUsedPercentage : JSNum
  totalQueries : ℕ
  orchestratorQueries : ℕ
  toolQueries : ℕ
deriving DecidableEq, Repr

/-- `getSummary()` (identical in both variants): a snapshot computed fresh
from the current state; `budgetUsedPercentage` is
`(totalCostCents / maxCostCents) * 100` in JavaScript arithmetic. -/
def getSummary (s : TrackerState) : CostSummary :=
  { totalCostCents := s.totalCostCents
    maxCostCents := s.maxCostCents
    remainingBudgetCents := getRemainingBudgetCents s
    budgetUsedPercentage := (jsDiv s.totalCostCents s.maxCostCents).mulPos 100
    totalQueries := s.usageHistory.length
    orchestratorQueries :=
      (s.usageHistory.filter (fun r => decide (r.source = Source.orchestrator))).length
    toolQueries :=
      (s.usageHistory.filter (fun r => decide (r.source = Source.tool))).length }

/-- Total cost of a list of usage records. -/
def sumCosts (l : List UsageRecord) : ℚ :=
  (l.map UsageRecord.costCents).sum

/-- A sequence of `addUsage` calls applied in order. -/
def applyUsages (s : TrackerState) (l : List UsageRecord) : TrackerState :=
  l.foldl addUsage s

namespace CostTrackerTs

/-!
The closure-based `createCostTracker` of `src/utils/cost-tracker.ts`.
Its helpers close over the imported pricing table, passed here explicitly.
`getModelPricing` throws for an unknown model; throwing is modelled with
`Except String`.
-/

def DEFAULT_CHAR_TO_TOKEN_RATIO : ℚ := 4

/-- `getModelPricing(model)`: looks the model up and throws
`Unknown model: ...` when absent. -/
def getModelPricing (pricing : PricingTable) (model : String) :
    Except String ModelCostConfig :=
  match pricing model with
  | none => .error ("Unknown model: " ++ model)
  | some p => .ok p

/-- `getDefaultMaxTokens(model)`:
`Math.min(pricing.max_output_tokens, pricing.max_tokens)`; propagates the
unknown-model error of `getModelPricing`. -/
def getDefaultMaxTokens (pricing : PricingTable) (model : String) :
    Except String ℚ :=
  (getModelPricing pricing model).map fun p => min p.max_output_tokens p.max_tokens

/-- `estimateCost(model, inputTokens, outputTokens)`:
`Math.ceil(inputTokens * input_cost_per_token * 100 + outputTokens * output_cost_per_token * 100)`;
propagates the unknown-model error. -/
def estimateCost (pricing : PricingTable) (model : String)
    (inputTokens outputTokens : ℚ) : Except String ℚ :=
  (getModelPricing pricing model).map fun p =>
    let inputCost := inputTokens * p.input_cost_per_token * 100
    let outputCost := outputTokens * p.output_cost_per_token * 100
    ((⌈inputCost + outputCost⌉ : ℤ) : ℚ)

/-- `estimateQueryCost(model, promptLength, expectedOutputTokens?)`:
input tokens are `Math.ceil(promptLength / 4)`; the output default is
`Math.min(pricing.max_output_tokens, Math.ceil(estimatedInputTokens * 1.5))`. -/
def estimateQueryCost (pricing : PricingTable) (model : String)
    (promptLength : ℚ) (expectedOutputTokens : Option ℚ) : Except String ℚ := do
  let p ← getModelPricing pricing model
  let estimatedInputTokens : ℚ := ((⌈promptLength / DEFAULT_CHAR_TO_TOKEN_RATIO⌉ : ℤ) : ℚ)
  let estimatedOutputTokens :=
    jsOrQ expectedOutputTokens
      (min p.max_output_tokens ((⌈estimatedInputTokens * (3 / 2)⌉ : ℤ) : ℚ))
  estimateCost pricing model estimatedInputTokens estimatedOutputTokens

/-- `canAffordQuery(model, promptLength, expectedOutputTokens?)`: compares the
estimate against the remaining budget; a thrown estimation error is caught
and the method returns `true`. -/
def canAffordQuery (pricing : PricingTable) (s : TrackerState) (model : String)
    (promptLength : ℚ) (expectedOutputTokens : Option ℚ) : Bool :=
  match estimateQueryCost pricing model promptLength expectedOutputTokens with
  | .ok estimatedCost => canAfford s estimatedCost
  | .error _ => true

/-- The object literal returned by `createCostTracker`. JavaScript copies the
primitive `totalCostCents` (value `0` at the `return`) into the object, while
`usageHistory` aliases the live array and every method closes over the live
`totalCostCents` variable — modelled by the `state` field. -/
structure TrackerObject where
  totalCostCents : ℚ
  maxCostCents : ℚ
  state : TrackerState
deriving DecidableEq, Repr

/-- `createCostTracker(maxCostCents)`: the returned object's
`totalCostCents` property is the value of the internal counter at creation
time, which is `0`. -/
def createCostTracker (maxCostCents : ℚ) : TrackerObject :=
  { totalCostCents := 0, maxCostCents := maxCostCents, state := createState maxCostCents }

/-- `tracker.addUsage(record)` through the returned object: mutates the
closure state; the copied `totalCostCents` property is untouched. -/
def TrackerObject.addUsage (o : TrackerObject) (r : UsageRecord) : TrackerObject :=
  { o with state := OpenAgentic.addUsage o.state r }

/-- The object's `usageHistory` property: the live array. -/
def TrackerObject.usageHistory (o : TrackerObject) : List UsageRecord :=
  o.state.usageHistory

/-- The object's `getSummary()` method: reads the live closure state. -/
def TrackerObject.getSummary (o : TrackerObject) : CostSummary :=
  OpenAgentic.getSummary o.state

/-- The object's `getRemainingBudgetCents()` method: reads the live state. -/
def TrackerObject.getRemainingBudgetCents (o : TrackerObject) : ℚ :=
  OpenAgentic.getRemainingBudgetCents o.state

end CostTrackerTs

namespace CostTrackerImpl

/-!
The class-based `CostTrackerImpl` variant. `modelConfigs` (the parsed
pricing table) is passed explicitly; no method of this variant throws.
-/

def DEFAULT_CHAR_TO_TOKEN_RATIO : ℚ := 4

def FALLBACK_MAX_TOKENS : ℚ := 4096

/-- `getFallbackConfig()`:
`this.modelConfigs["gpt-4"] || this.modelConfigs["gpt-3.5-turbo"] || null`. -/
def getFallbackConfig (pricing : PricingTable) : Option ModelCostConfig :=
  match pricing "gpt-4" with
  | some c => some c
  | none => pricing "gpt-3.5-turbo"

/-- `getDefaultMaxTokens(model)`: `4096` for an unknown model; otherwise the
budget-tiered limit. The percentage is a JavaScript division
`remainingBudgetCents / maxCostCents`, so with `maxCostCents = 0` it is
`NaN` (or `+Infinity`) and both tier comparisons are false. -/
def getDefaultMaxTokens (pricing : PricingTable) (s : TrackerState)
    (model : String) : ℚ :=
  match pricing model with
  | none => FALLBACK_MAX_TOKENS
  | some config =>
    let remainingBudgetCents := getRemainingBudgetCents s
    let remainingBudgetPercentage := jsDiv remainingBudgetCents s.maxCostCents
    if remainingBudgetPercentage.leB (1 / 10) then
      min config.max_output_tokens 512
    else if remainingBudgetPercentage.leB (3 / 10) then
      min config.max_output_tokens 2048
    else
      config.max_output_tokens

/-- `estimateCost(model, inputTokens, outputTokens = 0)`: the exact
(unrounded) value
`(inputTokens * input_cost_per_token + outputTokens * output_cost_per_token) * 100`,
using fallback pricing for an unknown model and `0` as last resort. -/
def estimateCost (pricing : PricingTable) (model : String)
    (inputTokens outputTokens : ℚ) : ℚ :=
  match pricing model with
  | some config =>
    (inputTokens * config.input_cost_per_token
      + outputTokens * config.output_cost_per_token) * 100
  | none =>
    match getFallbackConfig pricing with
    | none => 0
    | some fallbackConfig =>
      (inputTokens * fallbackConfig.input_cost_per_token
        + outputTokens * fallbackConfig.output_cost_per_token) * 100

/-- `estimateQueryCost(model, promptLength, expectedOutputTokens?)`: input
tokens are `Math.ceil(promptLength / 4)`; the output default is
`this.getDefaultMaxTokens(model)`. -/
def estimateQueryCost (pricing : PricingTable) (s : TrackerState)
    (model : String) (promptLength : ℚ) (expectedOutputTokens : Option ℚ) : ℚ :=
  let estimatedInputTokens : ℚ := ((⌈promptLength / DEFAULT_CHAR_TO_TOKEN_RATIO⌉ : ℤ) : ℚ)
  let estimatedOutputTokens :=
    jsOrQ expectedOutputTokens (getDefaultMaxTokens pricing s model)
  estimateCost pricing model estimatedInputTokens estimatedOutputTokens

/-- `canAffordQuery(...)`: wraps the estimate in `try/catch`, but the body of
this variant cannot throw, so it is the plain comparison. -/
def canAffordQuery (pricing : PricingTable) (s : TrackerState) (model : String)
    (promptLength : ℚ) (expectedOutputTokens : Option ℚ) : Bool :=
  canAfford s (estimateQueryCost pricing s model promptLength expectedOutputTokens)

end CostTrackerImpl

/-!
The execution guard: `executeOpenAi` (`src/tools/openai.ts`) and
`executeAnthropic` (`src/tools/anthropic.ts`). Both take the tracker through
the `CostTracker` interface of `types.ts`; the interface dispatch is
modelled by a `CostTrackerOps` record, instantiated below for both variants.
-/

/-- `tokenUsage` of a provider's `response_metadata`. -/
structure TokenUsage where
  promptTokens : ℚ
  completionTokens : ℚ
deriving DecidableEq, Repr

/-- A successful provider response: its content and optionally reported
usage (`response.response_metadata?.tokenUsage`). -/
structure ProviderResponse where
  content : String
  tokenUsage : Option TokenUsage
deriving DecidableEq, Repr

/-- The errors the executors can throw. The source throws `Error` objects
whose message strings interpolate the data modelled here; `wrapped` is the
`catch` clause's re-throw with a tool-specific message prefix. -/
inductive ExecError where
  | insufficientBudget (remainingCents : ℚ)
  | trackerError (msg : String)
  | providerError (msg : String)
  | wrapped (label : String) (inner : ExecError)
deriving DecidableEq, Repr

/-- The remaining-budget figure interpolated into an error's message, when
there is one (`... remaining budget of ${n} cents`). -/
def ExecError.carriedRemaining : ExecError → Option ℚ
  | .insufficientBudget r => some r
  | .wrapped _ inner => inner.carriedRemaining
  | .trackerError _ => none
  | .providerError _ => none

/-- The `CostTracker` interface as the executors consume it. Methods that
can throw in the closure variant return `Except String`. -/
structure CostTrackerOps where
  getDefaultMaxTokens : TrackerState → String → Except String ℚ
  canAffordQuery : TrackerState → String → ℚ → Option ℚ → Bool
  estimateCost : TrackerState → String → ℚ → ℚ → Except String ℚ

/-- Interface dispatch to the closure-based tracker. -/
def CostTrackerTs.ops (pricing : PricingTable) : CostTrackerOps :=
  { getDefaultMaxTokens := fun _ model => CostTrackerTs.getDefaultMaxTokens pricing model
    canAffordQuery := fun s model promptLength out =>
      CostTrackerTs.canAffordQuery pricing s model promptLength out
    estimateCost := fun _ model i o => CostTrackerTs.estimateCost pricing model i o }

/-- Interface dispatch to the class-based tracker (total methods). -/
def CostTrackerImpl.ops (pricing : PricingTable) : CostTrackerOps :=
  { getDefaultMaxTokens := fun s model =>
      .ok (CostTrackerImpl.getDefaultMaxTokens pricing s model)
    canAffordQuery := fun s model promptLength out =>
      CostTrackerImpl.canAffordQuery pricing s model promptLength out
    estimateCost := fun _ model i o => .ok (CostTrackerImpl.estimateCost pricing model i o) }

/-- Whether a JavaScript `costTracker` key is absent from an object literal,
present with value `undefined`, or present with a real value. -/
inductive KeyState (α : Type) where
  | absent
  | presentUndefined
  | present (value : α)
deriving DecidableEq, Repr

/-- The result envelope the executors return. -/
structure ToolEnvelope where
  success : Bool
  response : String
  model : String
  usage : Option TokenUsage
  costTracker : KeyState CostSummary
deriving DecidableEq, Repr

/-- `maxTokens || costTracker.getDefaultMaxTokens(modelName)`: `undefined`
and `0` are falsy, selecting the tracker default (which can throw in the
closure variant). -/
def resolveMaxTokens (ops : CostTrackerOps) (s : TrackerState) (modelName : String)
    (maxTokens : Option ℚ) : Except String ℚ :=
  match maxTokens with
  | some v => if v = 0 then ops.getDefaultMaxTokens s modelName else .ok v
  | none => ops.getDefaultMaxTokens s modelName

/-- `executeOpenAi` before its `catch` clause wraps errors. Returns the
outcome together with the tracker state after the call; every throwing path
leaves the state as it was. The provider's outcome is the `provider`
argument; note the pre-flight check calls
`canAffordQuery(modelName, message.length)` with no output estimate. -/
def executeOpenAiBody (ops : CostTrackerOps) (message modelName : String)
    (maxTokens : Option ℚ) (tracker : Option TrackerState)
    (provider : Except String ProviderResponse) :
    Except ExecError ToolEnvelope × Option TrackerState :=
  match tracker with
  | some s =>
    if ops.canAffordQuery s modelName (message.length : ℚ) none then
      match resolveMaxTokens ops s modelName maxTokens with
      | .error e => (.error (.trackerError e), some s)
      | .ok _resolved =>
        match provider with
        | .error e => (.error (.providerError e), some s)
        | .ok resp =>
          match resp.tokenUsage with
          | some u =>
            match ops.estimateCost s modelName u.promptTokens u.completionTokens with
            | .error e => (.error (.trackerError e), some s)
            | .ok costCents =>
              let s2 := addUsage s
                { model := modelName, inputTokens := u.promptTokens
                  outputTokens := u.completionTokens, costCents := costCents
                  timestamp := 0, source := .tool, toolName := some "openai" }
              (.ok { success := true, response := resp.content, model := modelName
                     usage := resp.tokenUsage
                     costTracker := .present (getSummary s2) }, some s2)
          | none =>
            (.ok { success := true, response := resp.content, model := modelName
                   usage := none, costTracker := .present (getSummary s) }, some s)
    else
      (.error (.insufficientBudget (getRemainingBudgetCents s)), some s)
  | none =>
    match provider with
    | .error e => (.error (.providerError e), none)
    | .ok resp =>
      -- `costTracker: costTracker?.getSummary()` puts the key on the object
      -- even when no tracker was supplied: its value is then `undefined`.
      (.ok { success := true, response := resp.content, model := modelName
             usage := resp.tokenUsage, costTracker := .presentUndefined }, none)

/-- `executeOpenAi`: the whole body runs inside `try { ... } catch`, so every
thrown error — the pre-flight budget rejection included — is re-thrown as
`OpenAI execution failed: ...`. -/
def executeOpenAi (ops : CostTrackerOps) (message modelName : String)
    (maxTokens : Option ℚ) (tracker : Option TrackerState)
    (provider : Except String ProviderResponse) :
    Except ExecError ToolEnvelope × Option TrackerState :=
  match executeOpenAiBody ops message modelName maxTokens tracker provider with
  | (.error e, sOut) => (.error (.wrapped "OpenAI execution failed" e), sOut)
  | ok => ok

/-- `executeAnthropic`: the pre-flight check runs before the `try` block
(its errors propagate unwrapped); it resolves
`estimatedOutputTokens = maxTokens || getDefaultMaxTokens(modelName)` first
and passes it to `canAffordQuery`. Provider and post-record errors are
wrapped as `Anthropic execution failed: ...`; the envelope adds the
`costTracker` key by conditional spread, so it is absent without a tracker. -/
def executeAnthropic (ops : CostTrackerOps) (message modelName : String)
    (maxTokens : Option ℚ) (tracker : Option TrackerState)
    (provider : Except String ProviderResponse) :
    Except ExecError ToolEnvelope × Option TrackerState :=
  match tracker with
  | some s =>
    match resolveMaxTokens ops s modelName maxTokens with
    | .error e => (.error (.trackerError e), some s)
    | .ok estimatedOutputTokens =>
      if ops.canAffordQuery s modelName (message.length : ℚ) (some estimatedOutputTokens) then
        match provider with
        | .error e => (.error (.wrapped "Anthropic execution failed" (.providerError e)), some s)
        | .ok resp =>
          match resp.tokenUsage with
          | some u =>
            match ops.estimateCost s modelName u.promptTokens u.completionTokens with
            | .error e =>
              (.error (.wrapped "Anthropic execution failed" (.trackerError e)), some s)
            | .ok costCents =>
              let s2 := addUsage s
                { model := modelName, inputTokens := u.promptTokens
                  outputTokens := u.completionTokens, costCents := costCents
                  timestamp := 0, source := .tool, toolName := some "anthropic" }
              (.ok { success := true, response := resp.content, model := modelName
                     usage := resp.tokenUsage
                     costTracker := .present (getSummary s2) }, some s2)
          | none =>
            (.ok { success := true, response := resp.content, model := modelName
                   usage := none, costTracker := .present (getSummary s) }, some s)
      else
        (.error (.insufficientBudget (getRemainingBudgetCents s)), some s)
  | none =>
    match provider with
    | .error e => (.error (.wrapped "Anthropic execution failed" (.providerError e)), none)
    | .ok resp =>
      (.ok { success := true, response := resp.content, model := modelName
             usage := resp.tokenUsage, costTracker := .absent }, none)

/-!
The orchestrator entry `chat` of `src/ai.ts`, embedded up to its provider
invocation. The source invokes the bound model as
`invokeModel.invoke([{ role: "user", content: message }])` — one argument,
no token limit — and never reads `options.conservativeMode`.
-/

/-- `CostAwareOptions` from `types.ts`. -/
structure CostAwareOptions where
  maxCostCents : ℚ
  conservativeMode : Option Bool := none
deriving DecidableEq, Repr

/-- What `chat` passes to the orchestrator model's `invoke`. -/
structure ChatInvocation where
  role : String
  content : String
  maxTokens : Option ℚ
deriving DecidableEq, Repr

namespace CreateAIWithTools

/-- `chat(message, options?)` up to the `invoke` call: builds the tracker
from `options` (closure-based `createCostTracker`, as `ai.ts` imports it),
runs the orchestrator pre-flight budget check, and produces the invocation.
No path consults `options.conservativeMode` and no path attaches a
`maxTokens` limit. -/
def chatPreInvoke (pricing : PricingTable) (modelName message : String)
    (options : Option CostAwareOptions) : Except ExecError ChatInvocation :=
  let costTracker : Option TrackerState := options.map fun o => createState o.maxCostCents
  match costTracker with
  | some s =>
    if CostTrackerTs.canAffordQuery pricing s modelName (message.length : ℚ) none then
      .ok { role := "user", content := message, maxTokens := none }
    else
      .error (.insufficientBudget (getRemainingBudgetCents s))
  | none => .ok { role := "user", content := message, maxTokens := none }

end CreateAIWithTools

/-!
Concrete pricing entries for witnesses and counterexamples: the `gpt-4`,
`gpt-3.5-turbo` and `claude-3-5-sonnet-20240620` rows that the repository's
unit tests mock the pricing table with.
-/

def gpt4Config : ModelCostConfig :=
  { max_tokens := 8192, max_input_tokens := 8192, max_output_tokens := 4096
    input_cost_per_token := 3 / 100000, output_cost_per_token := 6 / 100000 }

def gpt35Config : ModelCostConfig :=
  { max_tokens := 4096, max_input_tokens := 4096, max_output_tokens := 4096
    input_cost_per_token := 1 / 1000000, output_cost_per_token := 2 / 1000000 }

def claudeConfig : ModelCostConfig :=
  { max_tokens := 8192, max_input_tokens := 200000, max_output_tokens := 8192
    input_cost_per_token := 3 / 1000000, output_cost_per_token := 15 / 1000000 }

def testPricing : PricingTable := fun model =>
  if model = "gpt-4" then some gpt4Config
  else if model = "gpt-3.5-turbo" then some gpt35Config
  else if model = "claude-3-5-sonnet-20240620" then some claudeConfig
  else none

/-! ### Helper lemmas -/

theorem testPricing_gpt4 : testPricing "gpt-4" = some gpt4Config := by
  simp [testPricing]

theorem testPricing_gpt35 : testPricing "gpt-3.5-turbo" = some gpt35Config := by
  simp [testPricing]

theorem testPricing_claude : testPricing "claude-3-5-sonnet-20240620" = some claudeConfig := by
  simp [testPricing]

theorem testPricing_unknown : testPricing "nonexistent-model" = none := by
  simp [testPricing]

theorem testPricing_emptyName : testPricing "" = none := by
  simp [testPricing]

theorem applyUsages_maxCost (l : List UsageRecord) (s : TrackerState) :
    (applyUsages s l).maxCostCents = s.maxCostCents := by
  induction l generalizing s with
  | nil => rfl
  | cons r t ih => simpa [applyUsages, addUsage] using ih (addUsage s r)

theorem applyUsages_total (l : List UsageRecord) (s : TrackerState) :
    (applyUsages s l).totalCostCents = s.totalCostCents + sumCosts l := by
  induction l generalizing s with
  | nil => simp [applyUsages, sumCosts]
  | cons r t ih =>
    have h := ih (addUsage s r)
    simp only [applyUsages, List.foldl] at h ⊢
    rw [h]
    simp [addUsage, sumCosts]
    ring

theorem applyUsages_history (l : List UsageRecord) (s : TrackerState) :
    (applyUsages s l).usageHistory = s.usageHistory ++ l := by
  induction l generalizing s with
  | nil => simp [applyUsages]
  | cons r t ih =>
    have h := ih (addUsage s r)
    simp only [applyUsages, List.foldl] at h ⊢
    rw [h]
    simp [addUsage]

theorem trackerObject_foldl (l : List UsageRecord) (o : CostTrackerTs.TrackerObject) :
    l.foldl CostTrackerTs.TrackerObject.addUsage o
      = { o with state := applyUsages o.state l } := by
  induction l generalizing o with
  | nil => simp [applyUsages]
  | cons r t ih =>
    have h := ih (o.addUsage r)
    simp only [List.foldl] at h ⊢
    rw [h]
    simp [CostTrackerTs.TrackerObject.addUsage, applyUsages]

/-! ### Claim theorems -/

/-- **C1.** For every tracker (any `maxCostCents`) and every finite sequence
of `addUsage` calls: `totalCostCents` equals the sum of `costCents` over all
records in `usageHistory` (which is exactly the appended sequence), and
`getRemainingBudgetCents()` equals `max 0 (maxCostCents - totalCostCents)`,
which is never negative, even when `totalCostCents` exceeds `maxCostCents`.
The statement quantifies over all sequences, hence it holds after each call. -/
theorem budget_invariant (maxCostCents : ℚ) (l : List UsageRecord) :
    (applyUsages (createState maxCostCents) l).totalCostCents = sumCosts l
    ∧ (applyUsages (createState maxCostCents) l).usageHistory = l
    ∧ (applyUsages (createState maxCostCents) l).totalCostCents
        = sumCosts (applyUsages (createState maxCostCents) l).usageHistory
    ∧ getRemainingBudgetCents (applyUsages (createState maxCostCents) l)
        = max 0 (maxCostCents - (applyUsages (createState maxCostCents) l).totalCostCents)
    ∧ 0 ≤ getRemainingBudgetCents (applyUsages (createState maxCostCents) l) := by
  have h1 := applyUsages_total l (createState maxCostCents)
  have h2 := applyUsages_history l (createState maxCostCents)
  have h3 := applyUsages_maxCost l (createState maxCostCents)
  refine ⟨?_, ?_, ?_, ?_, le_max_left 0 _⟩
  · rw [h1]
    simp [createState]
  · rw [h2]
    simp [createState]
  · rw [h2, h1]
    simp [createState, sumCosts]
  · rw [getRemainingBudgetCents, h3]
    simp [createState]

/-- **C10.** The object returned by the closure-based `createCostTracker`
carries a `totalCostCents` property copied at creation time: after any
sequence of `addUsage` calls through the object it still reads `0`, while
`getSummary().totalCostCents` and `getRemainingBudgetCents()` reflect the
accumulated sum and the `usageHistory` property is the live, grown array.
The class-based `CostTrackerImpl` state keeps the field live. -/
theorem totalCostCents_snapshot (maxCostCents : ℚ) (l : List UsageRecord) :
    (l.foldl CostTrackerTs.TrackerObject.addUsage
        (CostTrackerTs.createCostTracker maxCostCents)).totalCostCents = 0
    ∧ (l.foldl CostTrackerTs.TrackerObject.addUsage
        (CostTrackerTs.createCostTracker maxCostCents)).getSummary.totalCostCents = sumCosts l
    ∧ (l.foldl CostTrackerTs.TrackerObject.addUsage
        (CostTrackerTs.createCostTracker maxCostCents)).getRemainingBudgetCents
        = max 0 (maxCostCents - sumCosts l)
    ∧ (l.foldl CostTrackerTs.TrackerObject.addUsage
        (CostTrackerTs.createCostTracker maxCostCents)).usageHistory = l
    ∧ (applyUsages (createState maxCostCents) l).totalCostCents = sumCosts l := by
  have hobj := trackerObject_foldl l (CostTrackerTs.createCostTracker maxCostCents)
  have h1 := applyUsages_total l (createState maxCostCents)
  have h2 := applyUsages_history l (createState maxCostCents)
  have h3 := applyUsages_maxCost l (createState maxCostCents)
  rw [hobj]
  simp only [CostTrackerTs.createCostTracker]
  refine ⟨trivial, ?_, ?_, ?_, by rw [h1]; simp [createState]⟩
  · simp only [CostTrackerTs.TrackerObject.getSummary, getSummary]
    rw [h1]
    simp [createState]
  · simp only [CostTrackerTs.TrackerObject.getRemainingBudgetCents, getRemainingBudgetCents]
    rw [h3, h1]
    simp [createState]
  · simp only [CostTrackerTs.TrackerObject.usageHistory]
    rw [h2]
    simp [createState]

/-- **C2 counterexample.** The class-based `CostTrackerImpl.estimateCost`
performs no rounding: at the `gpt-3.5-turbo` pricing of the repository's own
unit tests with 1000 input and 500 output tokens it returns the fractional
value `1/5` of a cent (the value the unit test expects), not the ceiling `1`
the claim prescribes. -/
theorem estimateCost_ceil_counterexample :
    CostTrackerImpl.estimateCost testPricing "gpt-3.5-turbo" 1000 500 = 1 / 5
    ∧ ((⌈((1000 * (1 / 1000000) + 500 * (2 / 1000000)) * 100 : ℚ)⌉ : ℤ) : ℚ) = 1
    ∧ CostTrackerImpl.estimateCost testPricing "gpt-3.5-turbo" 1000 500
        ≠ ((⌈((1000 * (1 / 1000000) + 500 * (2 / 1000000)) * 100 : ℚ)⌉ : ℤ) : ℚ) := by
  have h1 : CostTrackerImpl.estimateCost testPricing "gpt-3.5-turbo" 1000 500 = 1 / 5 := by
    simp only [CostTrackerImpl.estimateCost, testPricing_gpt35]
    norm_num [gpt35Config]
  have h2 : ((⌈((1000 * (1 / 1000000) + 500 * (2 / 1000000)) * 100 : ℚ)⌉ : ℤ) : ℚ) = 1 := by
    rw [show ⌈((1000 * (1 / 1000000) + 500 * (2 / 1000000)) * 100 : ℚ)⌉ = 1 by
      rw [Int.ceil_eq_iff] <;> norm_num]
    norm_num
  refine ⟨h1, h2, ?_⟩
  rw [h1, h2]
  norm_num

/-- **C2 amended.** The closure-based `createCostTracker`'s `estimateCost`
returns, for every model with a pricing entry and all non-negative integer
token counts, exactly
`ceil((inputTokens * inputCostPerToken + outputTokens * outputCostPerToken) * 100)`,
which is never less than the exact fractional cost; the class-based
`CostTrackerImpl.estimateCost` instead returns the unrounded fractional
value. -/
theorem estimateCost_ceil (pricing : PricingTable) (model : String)
    (p : ModelCostConfig) (h : pricing model = some p)
    (inputTokens outputTokens : ℕ) :
    CostTrackerTs.estimateCost pricing model inputTokens outputTokens
      = .ok ((⌈((inputTokens : ℚ) * p.input_cost_per_token
            + (outputTokens : ℚ) * p.output_cost_per_token) * 100⌉ : ℤ) : ℚ)
    ∧ ((inputTokens : ℚ) * p.input_cost_per_token
            + (outputTokens : ℚ) * p.output_cost_per_token) * 100
        ≤ ((⌈((inputTokens : ℚ) * p.input_cost_per_token
            + (outputTokens : ℚ) * p.output_cost_per_token) * 100⌉ : ℤ) : ℚ)
    ∧ CostTrackerImpl.estimateCost pricing model inputTokens outputTokens
      = ((inputTokens : ℚ) * p.input_cost_per_token
            + (outputTokens : ℚ) * p.output_cost_per_token) * 100 := by
  refine ⟨?_, Int.le_ceil _, ?_⟩
  · simp only [CostTrackerTs.estimateCost, CostTrackerTs.getModelPricing, h, Except.map]
    congr 2
    ring
  · simp only [CostTrackerImpl.estimateCost, h]

/-- **C2 witness.** The amended theorem applied at the test pricing table's
`gpt-4` entry with 1000 input and 500 output tokens yields the ceiling value
(which is 6 cents here). -/
theorem estimateCost_ceil_witness :
    CostTrackerTs.estimateCost testPricing "gpt-4" (1000 : ℕ) (500 : ℕ)
      = .ok ((⌈(((1000 : ℕ) : ℚ) * gpt4Config.input_cost_per_token
            + ((500 : ℕ) : ℚ) * gpt4Config.output_cost_per_token) * 100⌉ : ℤ) : ℚ)
    ∧ ((⌈(((1000 : ℕ) : ℚ) * gpt4Config.input_cost_per_token
            + ((500 : ℕ) : ℚ) * gpt4Config.output_cost_per_token) * 100⌉ : ℤ) : ℚ) = 6 := by
  refine ⟨(estimateCost_ceil testPricing "gpt-4" gpt4Config testPricing_gpt4 1000 500).1, ?_⟩
  rw [show ⌈(((1000 : ℕ) : ℚ) * gpt4Config.input_cost_per_token
            + ((500 : ℕ) : ℚ) * gpt4Config.output_cost_per_token) * 100⌉ = 6 by
    rw [Int.ceil_eq_iff] <;> norm_num [gpt4Config]]
  norm_num

/-- **C3 counterexample.** The closure-based `getDefaultMaxTokens` refutes
the claim as stated: it takes no budget state at all and returns
`min(max_output_tokens, max_tokens)` (4096 for the `gpt-4` entry) whatever
the remaining-budget ratio is, where the claim demands `min(·, 512) = 512`
at a ratio of at most 0.1; and for a model with no pricing entry it throws
`Unknown model: ...` instead of returning the fallback 4096. -/
theorem getDefaultMaxTokens_counterexample :
    CostTrackerTs.getDefaultMaxTokens testPricing "gpt-4" = .ok 4096
    ∧ ((4096 : ℚ) ≠ min gpt4Config.max_output_tokens 512)
    ∧ CostTrackerTs.getDefaultMaxTokens testPricing "nonexistent-model"
        = .error "Unknown model: nonexistent-model" := by
  refine ⟨?_, ?_, ?_⟩
  · simp only [CostTrackerTs.getDefaultMaxTokens, CostTrackerTs.getModelPricing,
      testPricing_gpt4, Except.map]
    norm_num [gpt4Config]
  · norm_num [gpt4Config]
  · simp [CostTrackerTs.getDefaultMaxTokens, CostTrackerTs.getModelPricing, testPricing_unknown,
      Except.map]

/-- **C3 amended.** For the class-based `CostTrackerImpl` (with
`maxCostCents > 0`): `getDefaultMaxTokens` returns `min(maxOutputTokens, 512)`
when the remaining-budget ratio is at most 0.1, `min(maxOutputTokens, 2048)`
when it is at most 0.3, and the full `maxOutputTokens` otherwise; for a model
with no pricing entry it returns the fixed fallback 4096 regardless of budget
state, and (being a total function) it never throws. -/
theorem getDefaultMaxTokens_spec (pricing : PricingTable) (s : TrackerState)
    (model : String) :
    (∀ p, pricing model = some p → 0 < s.maxCostCents →
      CostTrackerImpl.getDefaultMaxTokens pricing s model =
        (if getRemainingBudgetCents s / s.maxCostCents ≤ 1 / 10 then
          min p.max_output_tokens 512
         else if getRemainingBudgetCents s / s.maxCostCents ≤ 3 / 10 then
          min p.max_output_tokens 2048
         else p.max_output_tokens))
    ∧ (pricing model = none →
        CostTrackerImpl.getDefaultMaxTokens pricing s model = 4096) := by
  constructor
  · intro p hp hmax
    have hne : s.maxCostCents ≠ 0 := ne_of_gt hmax
    simp only [CostTrackerImpl.getDefaultMaxTokens, hp, jsDiv, hne, if_false,
      JSNum.leB, decide_eq_true_eq]
  · intro hp
    simp [CostTrackerImpl.getDefaultMaxTokens, hp, CostTrackerImpl.FALLBACK_MAX_TOKENS]

/-- **C3 witness.** At 5% remaining budget the class-based variant returns
the minimal tier `min(4096, 512) = 512` for `gpt-4`, and 4096 for a model
with no pricing entry. -/
theorem getDefaultMaxTokens_spec_witness :
    CostTrackerImpl.getDefaultMaxTokens testPricing
        { maxCostCents := 100, totalCostCents := 95, usageHistory := [] } "gpt-4" = 512
    ∧ CostTrackerImpl.getDefaultMaxTokens testPricing (createState 0) "nonexistent-model"
        = 4096 := by
  constructor
  · rw [(getDefaultMaxTokens_spec testPricing
        { maxCostCents := 100, totalCostCents := 95, usageHistory := [] } "gpt-4").1
      gpt4Config testPricing_gpt4 (by norm_num)]
    norm_num [getRemainingBudgetCents, gpt4Config]
  · exact (getDefaultMaxTokens_spec testPricing (createState 0) "nonexistent-model").2
      testPricing_unknown

/-- **C7.** Boundary behavior at `maxCostCents = 0` with an empty history:
`canAfford(0)` is true and `canAfford(1)` is false as the claim states, but
`getDefaultMaxTokens("gpt-4")` returns the full `max_output_tokens` (4096),
not the claimed minimal tier `min(4096, 512) = 512`: the unguarded division
`0 / 0` is `NaN` in JavaScript and both tier comparisons are false. -/
theorem zero_budget_nan_fallthrough :
    canAfford (createState 0) 0 = true
    ∧ canAfford (createState 0) 1 = false
    ∧ CostTrackerImpl.getDefaultMaxTokens testPricing (createState 0) "gpt-4"
        = gpt4Config.max_output_tokens
    ∧ gpt4Config.max_output_tokens ≠ min gpt4Config.max_output_tokens 512 := by
  refine ⟨?_, ?_, ?_, ?_⟩
  · norm_num [canAfford, getRemainingBudgetCents, createState]
  · norm_num [canAfford, getRemainingBudgetCents, createState]
  · simp [CostTrackerImpl.getDefaultMaxTokens, testPricing_gpt4, createState,
      getRemainingBudgetCents, jsDiv, JSNum.leB]
  · norm_num [gpt4Config]

/-- **C4.** `canAffordQuery` is a total boolean function in both variants
(never throws), and whenever the underlying cost estimation raises an error
— in the closure variant, exactly the unknown-model case — it returns `true`
instead of propagating; when estimation succeeds it is the plain comparison
against the remaining budget. This covers empty/unknown model strings, zero
prompt length and an omitted output estimate, over which it quantifies. -/
theorem canAffordQuery_never_throws (pricing : PricingTable) (s : TrackerState)
    (model : String) (promptLength : ℚ) (expectedOutputTokens : Option ℚ) :
    (pricing model = none →
      CostTrackerTs.canAffordQuery pricing s model promptLength expectedOutputTokens = true)
    ∧ (∀ e, CostTrackerTs.estimateQueryCost pricing model promptLength expectedOutputTokens
          = .error e →
      CostTrackerTs.canAffordQuery pricing s model promptLength expectedOutputTokens = true)
    ∧ (∀ c, CostTrackerTs.estimateQueryCost pricing model promptLength expectedOutputTokens
          = .ok c →
      CostTrackerTs.canAffordQuery pricing s model promptLength expectedOutputTokens
        = canAfford s c)
    ∧ CostTrackerImpl.canAffordQuery pricing s model promptLength expectedOutputTokens
        = canAfford s
            (CostTrackerImpl.estimateQueryCost pricing s model promptLength expectedOutputTokens) := by
  refine ⟨?_, ?_, ?_, rfl⟩
  · intro hp
    have herr : CostTrackerTs.estimateQueryCost pricing model promptLength expectedOutputTokens
        = .error ("Unknown model: " ++ model) := by
      simp [CostTrackerTs.estimateQueryCost, CostTrackerTs.getModelPricing, hp,
        Bind.bind, Except.bind]
    simp [CostTrackerTs.canAffordQuery, herr]
  · intro e he
    simp [CostTrackerTs.canAffordQuery, he]
  · intro c hc
    simp [CostTrackerTs.canAffordQuery, hc]

/-- **C4 witness.** The empty model string has no pricing entry; the
closure variant's estimation throws there and `canAffordQuery` still returns
`true`, even with a zero budget, a zero-length prompt and no output
estimate. -/
theorem canAffordQuery_never_throws_witness :
    CostTrackerTs.canAffordQuery testPricing (createState 0) "" 0 none = true :=
  (canAffordQuery_never_throws testPricing (createState 0) "" 0 none).1 testPricing_emptyName

/-- **C8 counterexample.** The closure-based `estimateQueryCost` refutes the
claim as stated: with the `gpt-4` test entry and a 100-character prompt and
no expected output, it defaults the output estimate to
`min(max_output_tokens, ceil(1.5 * estimatedInputTokens)) = 38` and returns
1 cent, while the claim prescribes `estimateCost` at
`getDefaultMaxTokens("gpt-4") = 4096` output tokens, which is 25 cents. -/
theorem estimateQueryCost_counterexample :
    CostTrackerTs.estimateQueryCost testPricing "gpt-4" 100 none = .ok 1
    ∧ CostTrackerTs.getDefaultMaxTokens testPricing "gpt-4" = .ok 4096
    ∧ CostTrackerTs.estimateCost testPricing "gpt-4" ((⌈(100 : ℚ) / 4⌉ : ℤ) : ℚ) 4096
        = .ok 25
    ∧ (Except.ok (1 : ℚ) : Except String ℚ) ≠ .ok 25 := by
  have hc25 : ⌈(100 : ℚ) / 4⌉ = (25 : ℤ) := by
    rw [Int.ceil_eq_iff] <;> norm_num
  refine ⟨?_, ?_, ?_, by simp⟩
  · simp only [CostTrackerTs.estimateQueryCost, CostTrackerTs.getModelPricing,
      testPricing_gpt4, CostTrackerTs.DEFAULT_CHAR_TO_TOKEN_RATIO, Bind.bind, Except.bind,
      jsOrQ, CostTrackerTs.estimateCost, Except.map, hc25]
    rw [show ⌈((25 : ℤ) : ℚ) * (3 / 2)⌉ = (38 : ℤ) by rw [Int.ceil_eq_iff] <;> norm_num]
    rw [show (gpt4Config.max_output_tokens ⊓ ((38 : ℤ) : ℚ)) = 38 by norm_num [gpt4Config]]
    rw [show (((25 : ℤ) : ℚ) * gpt4Config.input_cost_per_token * 100
        + 38 * gpt4Config.output_cost_per_token * 100) = 303 / 1000 by
      norm_num [gpt4Config]]
    rw [show ⌈(303 : ℚ) / 1000⌉ = (1 : ℤ) by rw [Int.ceil_eq_iff] <;> norm_num]
    norm_num
  · simp only [CostTrackerTs.getDefaultMaxTokens, CostTrackerTs.getModelPricing,
      testPricing_gpt4, Except.map]
    norm_num [gpt4Config]
  · simp only [CostTrackerTs.estimateCost, CostTrackerTs.getModelPricing,
      testPricing_gpt4, Except.map, hc25]
    rw [show (((25 : ℤ) : ℚ) * gpt4Config.input_cost_per_token * 100
        + 4096 * gpt4Config.output_cost_per_token * 100) = 24651 / 1000 by
      norm_num [gpt4Config]]
    rw [show ⌈(24651 : ℚ) / 1000⌉ = (25 : ℤ) by rw [Int.ceil_eq_iff] <;> norm_num]
    norm_num

/-- **C8 amended.** For the class-based `CostTrackerImpl`:
`estimateQueryCost(model, promptLength, expectedOutputTokens?)` estimates the
input token count as `ceil(promptLength / 4)`; when `expectedOutputTokens` is
omitted it uses `getDefaultMaxTokens(model)` as the output-token estimate,
and otherwise (for a non-zero value, `0` being falsy under `||`) the supplied
value; the result is `estimateCost` applied to those two token counts. The
closure-based variant instead defaults the output estimate to
`min(max_output_tokens, ceil(1.5 * estimatedInputTokens))`. -/
theorem estimateQueryCost_spec (pricing : PricingTable) (s : TrackerState)
    (model : String) (promptLength : ℚ) :
    CostTrackerImpl.estimateQueryCost pricing s model promptLength none
      = CostTrackerImpl.estimateCost pricing model ((⌈promptLength / 4⌉ : ℤ) : ℚ)
          (CostTrackerImpl.getDefaultMaxTokens pricing s model)
    ∧ (∀ expectedOutputTokens : ℚ, expectedOutputTokens ≠ 0 →
        CostTrackerImpl.estimateQueryCost pricing s model promptLength
            (some expectedOutputTokens)
          = CostTrackerImpl.estimateCost pricing model ((⌈promptLength / 4⌉ : ℤ) : ℚ)
              expectedOutputTokens) := by
  constructor
  · simp [CostTrackerImpl.estimateQueryCost, jsOrQ,
      CostTrackerImpl.DEFAULT_CHAR_TO_TOKEN_RATIO]
  · intro v hv
    simp [CostTrackerImpl.estimateQueryCost, jsOrQ, hv,
      CostTrackerImpl.DEFAULT_CHAR_TO_TOKEN_RATIO]

/-- **C8 witness.** The amended theorem applied with an explicit non-zero
expected output of 1024 tokens at the `gpt-4` test entry. -/
theorem estimateQueryCost_spec_witness :
    CostTrackerImpl.estimateQueryCost testPricing (createState 1000) "gpt-4" 100 (some 1024)
      = CostTrackerImpl.estimateCost testPricing "gpt-4" ((⌈(100 : ℚ) / 4⌉ : ℤ) : ℚ) 1024 :=
  (estimateQueryCost_spec testPricing (createState 1000) "gpt-4" 100).2 1024 (by norm_num)

/-- **C6.** `conservativeMode` has no effect in `src/ai.ts`: with
`conservativeMode: true` (and a passing budget pre-check) the orchestrator is
invoked with no `maxTokens` at all — not a value clamped to at most 1024 —
and the invocation is identical with the flag off. -/
theorem conservativeMode_ignored :
    CreateAIWithTools.chatPreInvoke testPricing "gpt-4" "Hi"
        (some { maxCostCents := 100000, conservativeMode := some true })
      = .ok { role := "user", content := "Hi", maxTokens := none }
    ∧ CreateAIWithTools.chatPreInvoke testPricing "gpt-4" "Hi"
        (some { maxCostCents := 100000, conservativeMode := some true })
      = CreateAIWithTools.chatPreInvoke testPricing "gpt-4" "Hi"
        (some { maxCostCents := 100000, conservativeMode := some false }) := by
  have hlen : (("Hi".length : ℕ) : ℚ) = 2 := by
    norm_num [show "Hi".length = 2 from rfl]
  have hafford : CostTrackerTs.canAffordQuery testPricing (createState 100000) "gpt-4"
      (("Hi".length : ℕ) : ℚ) none = true := by
    have hest : CostTrackerTs.estimateQueryCost testPricing "gpt-4"
        (("Hi".length : ℕ) : ℚ) none = .ok 1 := by
      rw [hlen]
      simp only [CostTrackerTs.estimateQueryCost, CostTrackerTs.getModelPricing,
        testPricing_gpt4, CostTrackerTs.DEFAULT_CHAR_TO_TOKEN_RATIO, Bind.bind, Except.bind,
        jsOrQ, CostTrackerTs.estimateCost, Except.map]
      rw [show ⌈(2 : ℚ) / 4⌉ = (1 : ℤ) by rw [Int.ceil_eq_iff] <;> norm_num]
      rw [show ⌈((1 : ℤ) : ℚ) * (3 / 2)⌉ = (2 : ℤ) by rw [Int.ceil_eq_iff] <;> norm_num]
      rw [show (gpt4Config.max_output_tokens ⊓ ((2 : ℤ) : ℚ)) = 2 by norm_num [gpt4Config]]
      rw [show (((1 : ℤ) : ℚ) * gpt4Config.input_cost_per_token * 100
          + 2 * gpt4Config.output_cost_per_token * 100) = 3 / 200 by norm_num [gpt4Config]]
      rw [show ⌈(3 : ℚ) / 200⌉ = (1 : ℤ) by rw [Int.ceil_eq_iff] <;> norm_num]
      norm_num
    simp [CostTrackerTs.canAffordQuery, hest, canAfford, getRemainingBudgetCents, createState]
  constructor
  · simp [CreateAIWithTools.chatPreInvoke, hafford]
  · simp [CreateAIWithTools.chatPreInvoke, hafford]

/-- **C5.** For every tracked call through either executor and any tracker
implementation behind the `CostTracker` interface: if the pre-flight
affordability check rejects, the result does not depend on the provider's
outcome (the provider is never invoked) and the thrown error carries the
current remaining budget in cents; and if the provider invocation throws,
the call fails and the tracker state is returned exactly as it was — no
`UsageRecord` is added, so `totalCostCents`, `usageHistory` and
`getRemainingBudgetCents()` are unchanged. -/
theorem execution_guard_symmetry (ops : CostTrackerOps) (message modelName : String)
    (maxTokens : Option ℚ) (s : TrackerState) (tracker : Option TrackerState)
    (provider provider' : Except String ProviderResponse) :
    (ops.canAffordQuery s modelName (message.length : ℚ) none = false →
      executeOpenAi ops message modelName maxTokens (some s) provider
        = executeOpenAi ops message modelName maxTokens (some s) provider'
      ∧ executeOpenAi ops message modelName maxTokens (some s) provider
          = (.error (.wrapped "OpenAI execution failed"
              (.insufficientBudget (getRemainingBudgetCents s))), some s)
      ∧ (ExecError.wrapped "OpenAI execution failed"
          (.insufficientBudget (getRemainingBudgetCents s))).carriedRemaining
          = some (getRemainingBudgetCents s))
    ∧ (∀ est, resolveMaxTokens ops s modelName maxTokens = .ok est →
        ops.canAffordQuery s modelName (message.length : ℚ) (some est) = false →
      executeAnthropic ops message modelName maxTokens (some s) provider
        = executeAnthropic ops message modelName maxTokens (some s) provider'
      ∧ executeAnthropic ops message modelName maxTokens (some s) provider
          = (.error (.insufficientBudget (getRemainingBudgetCents s)), some s)
      ∧ (ExecError.insufficientBudget (getRemainingBudgetCents s)).carriedRemaining
          = some (getRemainingBudgetCents s))
    ∧ (∀ e, provider = .error e →
      (∃ err, executeOpenAi ops message modelName maxTokens tracker provider
          = (.error err, tracker))
      ∧ (∃ err, executeAnthropic ops message modelName maxTokens tracker provider
          = (.error err, tracker))) := by
  refine ⟨?_, ?_, ?_⟩
  · intro hA
    refine ⟨?_, ?_, rfl⟩
    · simp [executeOpenAi, executeOpenAiBody, hA]
    · simp [executeOpenAi, executeOpenAiBody, hA]
  · intro est hres hA
    refine ⟨?_, ?_, rfl⟩
    · simp [executeAnthropic, hres, hA]
    · simp [executeAnthropic, hres, hA]
  · intro e he
    subst he
    constructor
    · cases tracker with
      | none =>
        exact ⟨.wrapped "OpenAI execution failed" (.providerError e),
          by simp [executeOpenAi, executeOpenAiBody]⟩
      | some s0 =>
        cases h1 : ops.canAffordQuery s0 modelName (message.length : ℚ) none with
        | false =>
          exact ⟨.wrapped "OpenAI execution failed"
              (.insufficientBudget (getRemainingBudgetCents s0)),
            by simp [executeOpenAi, executeOpenAiBody, h1]⟩
        | true =>
          cases h2 : resolveMaxTokens ops s0 modelName maxTokens with
          | error e2 =>
            exact ⟨.wrapped "OpenAI execution failed" (.trackerError e2),
              by simp [executeOpenAi, executeOpenAiBody, h1, h2]⟩
          | ok v =>
            exact ⟨.wrapped "OpenAI execution failed" (.providerError e),
              by simp [executeOpenAi, executeOpenAiBody, h1, h2]⟩
    · cases tracker with
      | none =>
        exact ⟨.wrapped "Anthropic execution failed" (.providerError e),
          by simp [executeAnthropic]⟩
      | some s0 =>
        cases h2 : resolveMaxTokens ops s0 modelName maxTokens with
        | error e2 => exact ⟨.trackerError e2, by simp [executeAnthropic, h2]⟩
        | ok v =>
          cases h1 : ops.canAffordQuery s0 modelName (message.length : ℚ) (some v) with
          | false =>
            exact ⟨.insufficientBudget (getRemainingBudgetCents s0),
              by simp [executeAnthropic, h2, h1]⟩
          | true =>
            exact ⟨.wrapped "Anthropic execution failed" (.providerError e),
              by simp [executeAnthropic, h2, h1]⟩

/-- **C5 witness.** With a zero budget the class-based tracker's pre-flight
check rejects a `gpt-4` call: `executeOpenAi` fails with the wrapped
insufficient-budget error carrying the remaining 0 cents without consulting
the provider; and a provider failure (untracked here) yields an error with
the tracker argument returned unchanged. -/
theorem execution_guard_symmetry_witness :
    (CostTrackerImpl.ops testPricing).canAffordQuery (createState 0) "gpt-4"
        (("Hello".length : ℕ) : ℚ) none = false
    ∧ executeOpenAi (CostTrackerImpl.ops testPricing) "Hello" "gpt-4" none
        (some (createState 0)) (.ok { content := "r", tokenUsage := none })
      = (.error (.wrapped "OpenAI execution failed"
          (.insufficientBudget (getRemainingBudgetCents (createState 0)))),
         some (createState 0))
    ∧ (∃ err, executeAnthropic (CostTrackerImpl.ops testPricing) "Hi" "gpt-4" none none
        (.error "network error") = (.error err, none)) := by
  have hdef : CostTrackerImpl.getDefaultMaxTokens testPricing (createState 0) "gpt-4"
      = 4096 := by
    simp [CostTrackerImpl.getDefaultMaxTokens, testPricing_gpt4, createState,
      getRemainingBudgetCents, jsDiv, JSNum.leB, gpt4Config]
  have hlen : (("Hello".length : ℕ) : ℚ) = 5 := by
    norm_num [show "Hello".length = 5 from rfl]
  have hest : CostTrackerImpl.estimateQueryCost testPricing (createState 0) "gpt-4" 5 none
      = 12291 / 500 := by
    simp only [CostTrackerImpl.estimateQueryCost, jsOrQ, hdef,
      CostTrackerImpl.DEFAULT_CHAR_TO_TOKEN_RATIO, CostTrackerImpl.estimateCost,
      testPricing_gpt4]
    rw [show ⌈(5 : ℚ) / 4⌉ = (2 : ℤ) by rw [Int.ceil_eq_iff] <;> norm_num]
    norm_num [gpt4Config]
  have hfalse : (CostTrackerImpl.ops testPricing).canAffordQuery (createState 0) "gpt-4"
      (("Hello".length : ℕ) : ℚ) none = false := by
    rw [hlen]
    simp only [CostTrackerImpl.ops, CostTrackerImpl.canAffordQuery, hest]
    norm_num [canAfford, getRemainingBudgetCents, createState]
  refine ⟨hfalse, ?_, ?_⟩
  · exact ((execution_guard_symmetry (CostTrackerImpl.ops testPricing) "Hello" "gpt-4" none
      (createState 0) (some (createState 0)) (.ok { content := "r", tokenUsage := none })
      (.ok { content := "r", tokenUsage := none })).1 hfalse).2.1
  · exact ((execution_guard_symmetry (CostTrackerImpl.ops testPricing) "Hi" "gpt-4" none
      (createState 0) none (.error "network error")
      (.error "network error")).2.2 "network error" rfl).2

/-- A successful provider response used in the envelope evaluations: the
shape the repository's unit tests mock
(`content: "Test response"`, 50 prompt and 30 completion tokens). -/
def respTest : ProviderResponse :=
  { content := "Test response", tokenUsage := some { promptTokens := 50, completionTokens := 30 } }

/-- **C9.** Without a tracker, `executeOpenAi`'s envelope (written
`costTracker: costTracker?.getSummary()`) carries a `costTracker` key that is
PRESENT holding `undefined` — contradicting the claim (and the repository's
own test `expect(result).not.toHaveProperty("costTracker")`) that the key is
absent entirely; `executeAnthropic` (conditional spread) omits the key.
With a tracker, the field equals `getSummary()` of the post-call state. -/
theorem costTracker_key_presence :
    (executeOpenAi (CostTrackerImpl.ops testPricing) "Hello" "gpt-4" none none
        (.ok respTest)).1
      = .ok { success := true, response := "Test response", model := "gpt-4"
              usage := some { promptTokens := 50, completionTokens := 30 }
              costTracker := .presentUndefined }
    ∧ ((KeyState.presentUndefined : KeyState CostSummary) ≠ .absent)
    ∧ (executeAnthropic (CostTrackerImpl.ops testPricing) "Hello"
        "claude-3-5-sonnet-20240620" none none (.ok respTest)).1
      = .ok { success := true, response := "Test response"
              model := "claude-3-5-sonnet-20240620"
              usage := some { promptTokens := 50, completionTokens := 30 }
              costTracker := .absent }
    ∧ (match executeAnthropic (CostTrackerImpl.ops testPricing) "Hello"
          "claude-3-5-sonnet-20240620" (some 100) (some (createState 1000000))
          (.ok respTest) with
       | (.ok env, some s2) => env.costTracker = KeyState.present (getSummary s2)
       | _ => False) := by
  have hres : resolveMaxTokens (CostTrackerImpl.ops testPricing) (createState 1000000)
      "claude-3-5-sonnet-20240620" (some 100) = .ok 100 := by
    norm_num [resolveMaxTokens]
  have hlen : (("Hello".length : ℕ) : ℚ) = 5 := by
    norm_num [show "Hello".length = 5 from rfl]
  have hest : CostTrackerImpl.estimateQueryCost testPricing (createState 1000000)
      "claude-3-5-sonnet-20240620" 5 (some 100) = 753 / 5000 := by
    simp only [CostTrackerImpl.estimateQueryCost, jsOrQ,
      CostTrackerImpl.DEFAULT_CHAR_TO_TOKEN_RATIO, CostTrackerImpl.estimateCost,
      testPricing_claude]
    rw [show ⌈(5 : ℚ) / 4⌉ = (2 : ℤ) by rw [Int.ceil_eq_iff] <;> norm_num]
    norm_num [claudeConfig]
  have htrue : (CostTrackerImpl.ops testPricing).canAffordQuery (createState 1000000)
      "claude-3-5-sonnet-20240620" (("Hello".length : ℕ) : ℚ) (some 100) = true := by
    rw [hlen]
    simp only [CostTrackerImpl.ops, CostTrackerImpl.canAffordQuery, hest]
    norm_num [canAfford, getRemainingBudgetCents, createState]
  refine ⟨rfl, by simp, rfl, ?_⟩
  simp only [executeAnthropic, hres, htrue, respTest]
  simp [CostTrackerImpl.ops]

end OpenAgentic
